import Mathlib

/-!
Verification of the moltworker gateway supervisor and backup/restore engine.

The development shallowly embeds the control logic of:
* `src/gateway/process.ts` (`findExistingMoltbotProcess`, `ensureMoltbotGateway`),
* `src/gateway/env.ts` (`getEnvFingerprint`),
* `src/gateway/sync.ts` (`syncToR2`, the copy/redact phase of `syncToGitHub`),
* `start-moltbot.sh` (`should_restore_from_r2`).

External effects (process launches, rsync exit codes, file reads) are supplied
by explicit oracle records; the embedded functions compute the results,
event traces and durable-marker states the TypeScript/shell code would produce
for those outcomes.  All computation is over `List Char`/`String` with
structural recursion so every definition evaluates inside the kernel.
-/

/-! ## Generic list/character helpers (substitutes for JS string primitives) -/

/-- Substring containment, as JS `String.prototype.includes`. -/
def containsSub (sub : List Char) : List Char → Bool
  | [] => sub.isEmpty
  | c :: cs => sub.isPrefixOf (c :: cs) || containsSub sub cs

/-- Substring containment on `String`, as JS `includes`. -/
def strContains (s sub : String) : Bool :=
  containsSub sub.data s.data

/-- Whitespace trimming on character lists, as JS `trim` / `String.trim`. -/
def trimChars (l : List Char) : List Char :=
  ((l.dropWhile Char.isWhitespace).reverse.dropWhile Char.isWhitespace).reverse

/-- Whitespace trimming on `String`, as JS `trim`. -/
def strTrim (s : String) : String :=
  ⟨trimChars s.data⟩

/-- Lexicographic comparison of character lists by code point (JS UTF-16
string order restricted to the ASCII names that occur here). -/
def lexLe : List Char → List Char → Bool
  | [], _ => true
  | _ :: _, [] => false
  | a :: as, b :: bs =>
    if a.toNat < b.toNat then true
    else if b.toNat < a.toNat then false
    else lexLe as bs

/-- String comparison used by the JS array `sort()` call. -/
def strLe (a b : String) : Bool :=
  lexLe a.data b.data

/-- Insertion of a string into a sorted list, helper for `sortStrings`. -/
def insertStr (a : String) : List String → List String
  | [] => [a]
  | b :: bs => if strLe a b then a :: b :: bs else b :: insertStr a bs

/-- Insertion sort modelling the JS `Array.prototype.sort()` call on the
fingerprint key list. -/
def sortStrings : List String → List String
  | [] => []
  | a :: as => insertStr a (sortStrings as)

/-- Worker environment bindings (`MoltbotEnv`): every field read by
`getEnvFingerprint`, plus the storage credentials read by `syncToR2`
(`R2_ACCESS_KEY_ID`, `R2_SECRET_ACCESS_KEY`, `CF_ACCOUNT_ID`).
A field is `none` when the binding is undefined. -/
structure MoltbotEnv where
  AI_GATEWAY_API_KEY : Option String := none
  AI_GATEWAY_BASE_URL : Option String := none
  ANTHROPIC_API_KEY : Option String := none
  ANTHROPIC_BASE_URL : Option String := none
  OPENAI_API_KEY : Option String := none
  MOLTBOT_GATEWAY_TOKEN : Option String := none
  DEV_MODE : Option String := none
  CLAWDBOT_BIND_MODE : Option String := none
  TELEGRAM_BOT_TOKEN : Option String := none
  TELEGRAM_DM_POLICY : Option String := none
  DISCORD_BOT_TOKEN : Option String := none
  DISCORD_DM_POLICY : Option String := none
  SLACK_BOT_TOKEN : Option String := none
  SLACK_APP_TOKEN : Option String := none
  CDP_SECRET : Option String := none
  WORKER_URL : Option String := none
  GITHUB_TOKEN : Option String := none
  BRAVE_API_KEY : Option String := none
  X_BEARER_TOKEN : Option String := none
  X_CONSUMER_KEY : Option String := none
  X_CONSUMER_SECRET : Option String := none
  X_ACCESS_TOKEN : Option String := none
  X_ACCESS_TOKEN_SECRET : Option String := none
  OPENROUTER_API_KEY : Option String := none
  VIBEIT_API_KEY : Option String := none
  PUBLER_API_KEY : Option String := none
  PUBLER_WORKSPACE_ID : Option String := none
  R2_ACCESS_KEY_ID : Option String := none
  R2_SECRET_ACCESS_KEY : Option String := none
  CF_ACCOUNT_ID : Option String := none
  deriving Repr, DecidableEq

/-- JS truthiness for an optional string binding: an undefined binding and the
empty string are both falsy; every other string is truthy. -/
def truthy : Option String → Bool
  | none => false
  | some s => !(s == "")

/-- The recognized passthrough keys, paired with their values, in the exact
order `getEnvFingerprint` tests them. -/
def keyFlags (env : MoltbotEnv) : List (String × Option String) :=
  [("AI_GATEWAY_API_KEY", env.AI_GATEWAY_API_KEY),
   ("AI_GATEWAY_BASE_URL", env.AI_GATEWAY_BASE_URL),
   ("ANTHROPIC_API_KEY", env.ANTHROPIC_API_KEY),
   ("ANTHROPIC_BASE_URL", env.ANTHROPIC_BASE_URL),
   ("OPENAI_API_KEY", env.OPENAI_API_KEY),
   ("MOLTBOT_GATEWAY_TOKEN", env.MOLTBOT_GATEWAY_TOKEN),
   ("DEV_MODE", env.DEV_MODE),
   ("CLAWDBOT_BIND_MODE", env.CLAWDBOT_BIND_MODE),
   ("TELEGRAM_BOT_TOKEN", env.TELEGRAM_BOT_TOKEN),
   ("TELEGRAM_DM_POLICY", env.TELEGRAM_DM_POLICY),
   ("DISCORD_BOT_TOKEN", env.DISCORD_BOT_TOKEN),
   ("DISCORD_DM_POLICY", env.DISCORD_DM_POLICY),
   ("SLACK_BOT_TOKEN", env.SLACK_BOT_TOKEN),
   ("SLACK_APP_TOKEN", env.SLACK_APP_TOKEN),
   ("CDP_SECRET", env.CDP_SECRET),
   ("WORKER_URL", env.WORKER_URL),
   ("GITHUB_TOKEN", env.GITHUB_TOKEN),
   ("BRAVE_API_KEY", env.BRAVE_API_KEY),
   ("X_BEARER_TOKEN", env.X_BEARER_TOKEN),
   ("X_CONSUMER_KEY", env.X_CONSUMER_KEY),
   ("X_CONSUMER_SECRET", env.X_CONSUMER_SECRET),
   ("X_ACCESS_TOKEN", env.X_ACCESS_TOKEN),
   ("X_ACCESS_TOKEN_SECRET", env.X_ACCESS_TOKEN_SECRET),
   ("OPENROUTER_API_KEY", env.OPENROUTER_API_KEY),
   ("VIBEIT_API_KEY", env.VIBEIT_API_KEY),
   ("PUBLER_API_KEY", env.PUBLER_API_KEY),
   ("PUBLER_WORKSPACE_ID", env.PUBLER_WORKSPACE_ID)]

/-- The keys `getEnvFingerprint` pushes: recognized keys whose binding is
truthy, in code order (before sorting). -/
def truthyKeys (env : MoltbotEnv) : List String :=
  ((keyFlags env).filter (fun kv => truthy kv.2)).map (fun kv => kv.1)

/-- The set of recognized keys that are *present* in the snapshot
(defined, i.e. not `undefined`), regardless of value.  This is the spec's
notion of the present-key-set. -/
def presentKeys (env : MoltbotEnv) : List String :=
  ((keyFlags env).filter (fun kv => kv.2.isSome)).map (fun kv => kv.1)

/-- Embedding of `getEnvFingerprint` (`src/gateway/env.ts`): push the name of
every recognized key with a truthy value, sort, and join with `,`. -/
def getEnvFingerprint (env : MoltbotEnv) : String :=
  String.intercalate "," (sortStrings (truthyKeys env))

/-! ## Restore gating (`should_restore_from_r2` in `start-moltbot.sh`) -/

/-- Embedding of `should_restore_from_r2`.  `parseDate` models
`date -d STR +%s` (epoch seconds, `none` when the string does not parse);
the script substitutes `0` on parse failure (`|| echo "0"`).  `remote` and
`local_` model the contents of the remote and local `.last-sync` files,
`none` when the file does not exist. -/
def shouldRestoreFromR2 (parseDate : String → Option Int)
    (remote local_ : Option String) : Bool :=
  match remote with
  | none => false
  | some r =>
    match local_ with
    | none => true
    | some l =>
      let rEpoch := (parseDate r).getD 0
      let lEpoch := (parseDate l).getD 0
      rEpoch > lEpoch

/-! ## Process registry lookup (`findExistingMoltbotProcess`, `src/gateway/process.ts`) -/

/-- A process known to the sandbox: identifier, command string and lifecycle
status (the status strings used by the sandbox API: `starting`, `running`,
`stopped`, `failed`). -/
structure ProcHandle where
  id : Nat
  command : String
  status : String
  deriving Repr, DecidableEq

/-- Gateway-launch inclusion patterns from `findExistingMoltbotProcess`. -/
def isGatewayCommand (cmd : String) : Bool :=
  strContains cmd "start-moltbot.sh" ||
  strContains cmd "openclaw gateway" ||
  strContains cmd "clawdbot gateway"

/-- Non-supervised CLI exclusion patterns from `findExistingMoltbotProcess`. -/
def isCliCommand (cmd : String) : Bool :=
  strContains cmd "openclaw devices" ||
  strContains cmd "openclaw --version" ||
  strContains cmd "clawdbot devices" ||
  strContains cmd "clawdbot --version"

/-- Classification applied to each enumerated process: gateway-launch pattern
matches, no CLI exclusion pattern matches, and the status is `starting` or
`running`. -/
def isSupervisedGateway (p : ProcHandle) : Bool :=
  isGatewayCommand p.command && !isCliCommand p.command &&
    (p.status == "starting" || p.status == "running")

/-- Embedding of `findExistingMoltbotProcess`: scan the enumerated processes
in order and return the first supervised gateway; on enumeration failure
(`listProcesses` throwing, the `.error` case) return `none` — the catch block
logs and falls through to `return null`. -/
def findExistingMoltbotProcess (processes : Except Unit (List ProcHandle)) :
    Option ProcHandle :=
  match processes with
  | .error _ => none
  | .ok l => l.find? isSupervisedGateway

/-! ## Gateway supervisor (`ensureMoltbotGateway`, `src/gateway/process.ts`) -/

/-- Observable actions of one supervision cycle, in invocation order:
mounting storage, setting sandbox env vars, reading the fingerprint marker
(`cat /tmp/.env-fingerprint`), killing a process, writing the fingerprint
marker (`echo FP > /tmp/.env-fingerprint`), calling `startProcess`, and
probing a port with `waitForPort`. -/
inductive GwEvent where
  | mount
  | setEnv
  | readMarker
  | killProc (pid : Nat)
  | writeMarker (fp : String)
  | launch
  | waitPort (pid : Nat)
  deriving Repr, DecidableEq

/-- Oracle for the external effects one `ensureMoltbotGateway` call observes.
`processes` feeds `findExistingMoltbotProcess`; `storedRead` is the result of
`sandbox.exec("cat /tmp/.env-fingerprint")` (`.error` when the exec throws,
e.g. the file is absent); `markerBefore` is the marker file content before the
call (trimmed); `writeOk` tells whether the fingerprint write exec succeeds
(its failure is swallowed); `waitExistingOk` is the TCP readiness probe
outcome on the existing process; `startResult` is `sandbox.startProcess`
(`.error` = throw, propagated); `waitNewOk` is the probe on the new process
and `newWaitErrMsg` the diagnostic error built from the captured logs when
that probe times out. -/
structure GatewayOracle where
  processes : Except Unit (List ProcHandle)
  storedRead : Except Unit String
  markerBefore : Option String
  writeOk : Bool
  waitExistingOk : Bool
  startResult : Except String ProcHandle
  waitNewOk : Bool
  newWaitErrMsg : String

/-- The env-change test of `ensureMoltbotGateway`: the stored fingerprint is
`(result.stdout || '').trim()`; a throwing exec (file absent, first run) is
treated as changed, and any stored value different from the current
fingerprint is a change. -/
def envChanged (storedRead : Except Unit String) (env : MoltbotEnv) : Bool :=
  match storedRead with
  | .error _ => true
  | .ok s => !(strTrim s == getEnvFingerprint env)

/-- Result of one supervision cycle: the returned handle or propagated error,
the ordered event trace, and the fingerprint-marker content afterwards. -/
structure GwOutcome where
  result : Except String ProcHandle
  trace : List GwEvent
  markerAfter : Option String
  deriving Repr

/-- The fresh-launch tail of `ensureMoltbotGateway` (the code below the
`// Start a new Moltbot gateway` comment): write the current fingerprint to
the marker path (failure swallowed), then `startProcess` (throw propagated),
then probe the new port (timeout propagated as a diagnostic error). -/
def freshLaunch (env : MoltbotEnv) (o : GatewayOracle) (evs : List GwEvent) :
    GwOutcome :=
  let fp := getEnvFingerprint env
  let marker : Option String := if o.writeOk then some fp else o.markerBefore
  let evs1 := evs ++ [GwEvent.writeMarker fp, GwEvent.launch]
  match o.startResult with
  | .error e => { result := .error e, trace := evs1, markerAfter := marker }
  | .ok q =>
    let evs2 := evs1 ++ [GwEvent.waitPort q.id]
    if o.waitNewOk then
      { result := .ok q, trace := evs2, markerAfter := marker }
    else
      { result := .error o.newWaitErrMsg, trace := evs2, markerAfter := marker }

/-- Embedding of `ensureMoltbotGateway`: mount R2 (result ignored), set
sandbox env vars (failure swallowed), compute the fingerprint, look up an
existing gateway; on a fingerprint mismatch or unreadable marker kill the
old process and fall through to a fresh launch; on a match return the
existing handle when its port is reachable, otherwise kill it and fall
through; with no existing process go straight to the fresh launch. -/
def ensureMoltbotGateway (env : MoltbotEnv) (o : GatewayOracle) : GwOutcome :=
  let ev0 := [GwEvent.mount, GwEvent.setEnv]
  match findExistingMoltbotProcess o.processes with
  | some p =>
    let ev1 := ev0 ++ [GwEvent.readMarker]
    if envChanged o.storedRead env then
      freshLaunch env o (ev1 ++ [GwEvent.killProc p.id])
    else
      if o.waitExistingOk then
        { result := .ok p
          trace := ev1 ++ [GwEvent.waitPort p.id]
          markerAfter := o.markerBefore }
      else
        freshLaunch env o (ev1 ++ [GwEvent.waitPort p.id, GwEvent.killProc p.id])
  | none => freshLaunch env o ev0

/-! ## Durable-store sync (`syncToR2`, `src/gateway/sync.ts`) -/

/-- Result record mirroring the `SyncResult` interface. -/
structure SyncResult where
  success : Bool
  lastSync : Option String := none
  error : Option String := none
  details : Option String := none
  deriving Repr, DecidableEq

/-- Oracle for the external effects of one `syncToR2` call.
`mountOk` is `mountR2Storage`; `sanity` is the config sanity-check block
(`.error msg` when `startProcess`/`getLogs` throws inside the `try`,
`.ok stdout` with the optional captured stdout otherwise); `startSyncOk`
tells whether `startProcess(syncCmd)` returned normally (when it throws the
shell command never runs); the three `rsync…` booleans are the exit
statuses of the rsync invocations inside the command; `newTimestamp` is what
`date -Iseconds` prints; `syncExitCode` is the sync process's reported exit
status, which the code never consults; `readback` is the
`cat R2_MOUNT_PATH/.last-sync` block after the command (`.error` when any of
the awaits after the command throws, `.ok stdout` otherwise);
`procStdout`/`procStderr` are the sync process logs used for diagnostics;
`markerBefore` is the destination `.last-sync` content before the call. -/
structure SyncOracle where
  mountOk : Bool
  sanity : Except String (Option String)
  startSyncOk : Bool
  rsyncConfigNew : Bool
  rsyncConfigLegacy : Bool
  rsyncWorkspace : Bool
  newTimestamp : String
  syncExitCode : Nat
  readback : Except String (Option String)
  procStdout : String
  procStderr : String
  markerBefore : Option String

/-- R2 configuration gate of `syncToR2`: all three credential bindings must
be truthy (`!env.R2_ACCESS_KEY_ID || !env.R2_SECRET_ACCESS_KEY ||
!env.CF_ACCOUNT_ID` aborts). -/
def r2Configured (env : MoltbotEnv) : Bool :=
  truthy env.R2_ACCESS_KEY_ID && truthy env.R2_SECRET_ACCESS_KEY &&
    truthy env.CF_ACCOUNT_ID

/-- The sanity check passes when the check block did not throw and its
captured stdout contains `ok`. -/
def sanityPasses (o : SyncOracle) : Bool :=
  match o.sanity with
  | .ok (some s) => strContains s "ok"
  | _ => false

/-- Shell control flow of the sync command
`confNew || confLegacy && workspace && date -Iseconds > .last-sync`:
`&&` and `||` associate left with equal precedence, so the timestamp write
runs exactly when `(confNew || confLegacy) && workspace` succeeded.  The
config mirror counts as completed when either rsync path succeeded; the
workspace mirror carries `/root/clawd/` wholesale, including the
`skills/` subtree. -/
def configMirrorOk (o : SyncOracle) : Bool :=
  o.rsyncConfigNew || o.rsyncConfigLegacy

/-- Whether the shell command reaches and executes the marker write. -/
def markerWriteReached (o : SyncOracle) : Bool :=
  o.startSyncOk && (configMirrorOk o && o.rsyncWorkspace)

/-- Destination `.last-sync` content after the call: freshly written by
`date -Iseconds` exactly when the command reached the write, otherwise
whatever it was before. -/
def syncMarkerAfter (o : SyncOracle) : Option String :=
  if markerWriteReached o then some o.newTimestamp else o.markerBefore

/-- The timestamp validation applied to the read-back marker:
`lastSync && lastSync.match(/^\d{4}-\d{2}-\d{2}/)` — the trimmed value is
nonempty and starts with four digits, a dash, two digits, a dash and two
digits. -/
def dateShaped (s : String) : Bool :=
  match s.data with
  | y1 :: y2 :: y3 :: y4 :: '-' :: m1 :: m2 :: '-' :: d1 :: d2 :: _ =>
    y1.isDigit && y2.isDigit && y3.isDigit && y4.isDigit &&
      m1.isDigit && m2.isDigit && d1.isDigit && d2.isDigit
  | _ => false

/-- The read-back confirmation succeeds when the post-command awaits did not
throw, `cat` produced stdout, and the trimmed value is date-shaped. -/
def readbackValid (o : SyncOracle) : Bool :=
  match o.readback with
  | .ok (some s) => dateShaped (strTrim s)
  | _ => false

/-- Combined outcome of a `syncToR2` call: the returned `SyncResult`, the
destination marker afterwards, and whether the transfer command ran. -/
structure SyncOutcome where
  result : SyncResult
  markerAfter : Option String
  ranTransferCmd : Bool
  deriving Repr, DecidableEq

/-- Embedding of `syncToR2` (`src/gateway/sync.ts`): credential gate, mount
gate, config sanity check, then the rsync mirror command followed by the
read-back confirmation of the freshly written `.last-sync`.  Success is
decided solely by the read-back validation; the sync process's exit status
(`syncExitCode`) is never consulted. -/
def syncToR2 (env : MoltbotEnv) (o : SyncOracle) : SyncOutcome :=
  if !(r2Configured env) then
    { result := { success := false, error := some "R2 storage is not configured" }
      markerAfter := o.markerBefore
      ranTransferCmd := false }
  else if !o.mountOk then
    { result := { success := false, error := some "Failed to mount R2 storage" }
      markerAfter := o.markerBefore
      ranTransferCmd := false }
  else
    match o.sanity with
    | .error msg =>
      { result := { success := false, error := some "Failed to verify source files"
                    details := some msg }
        markerAfter := o.markerBefore
        ranTransferCmd := false }
    | .ok stdout_ =>
      if !(match stdout_ with | some s => strContains s "ok" | none => false) then
        { result := { success := false
                      error := some "Sync aborted: source missing config file"
                      details := some "The local config directory is missing critical files. This could indicate corruption or an incomplete setup." }
          markerAfter := o.markerBefore
          ranTransferCmd := false }
      else if !o.startSyncOk then
        { result := { success := false, error := some "Sync error" }
          markerAfter := o.markerBefore
          ranTransferCmd := false }
      else
        match o.readback with
        | .error msg =>
          { result := { success := false, error := some "Sync error"
                        details := some msg }
            markerAfter := syncMarkerAfter o
            ranTransferCmd := true }
        | .ok stamp =>
          let lastSync := stamp.map strTrim
          match lastSync with
          | some s =>
            if dateShaped s then
              { result := { success := true, lastSync := some s }
                markerAfter := syncMarkerAfter o
                ranTransferCmd := true }
            else
              { result := { success := false, error := some "Sync failed"
                            details := some (if !(o.procStderr == "") then o.procStderr
                                             else if !(o.procStdout == "") then o.procStdout
                                             else "No timestamp file created") }
                markerAfter := syncMarkerAfter o
                ranTransferCmd := true }
          | none =>
            { result := { success := false, error := some "Sync failed"
                          details := some (if !(o.procStderr == "") then o.procStderr
                                           else if !(o.procStdout == "") then o.procStdout
                                           else "No timestamp file created") }
              markerAfter := syncMarkerAfter o
              ranTransferCmd := true }

/-! ## Versioned-repository sync, copy and redaction phase
(`syncToGitHub`, `src/gateway/sync.ts`) -/

/-- Sample `date -d` parser used to instantiate the restore-gating theorem:
parses the two spec timestamps, fails on everything else. -/
def pdSample : String → Option Int := fun s =>
  if s == "2026-01-10T00:00:00Z" then some 1767916800
  else if s == "2026-01-09T00:00:00Z" then some 1767830400
  else none

/-- Environment with the three storage credentials configured. -/
def envR2 : MoltbotEnv :=
  { R2_ACCESS_KEY_ID := some "AKIA", R2_SECRET_ACCESS_KEY := some "SECRET",
    CF_ACCOUNT_ID := some "acct" }

/-- Sync oracle where every external step succeeds. -/
def syncOracleAllOk : SyncOracle :=
  { mountOk := true, sanity := .ok (some "ok"), startSyncOk := true,
    rsyncConfigNew := true, rsyncConfigLegacy := false, rsyncWorkspace := true,
    newTimestamp := "2026-01-10T00:00:00+00:00", syncExitCode := 0,
    readback := .ok (some "2026-01-10T00:00:00+00:00\n"),
    procStdout := "", procStderr := "", markerBefore := none }

/-- Sync oracle where the sanity check finds no config marker file. -/
def syncOracleBadSanity : SyncOracle :=
  { mountOk := true, sanity := .ok (some ""), startSyncOk := true,
    rsyncConfigNew := true, rsyncConfigLegacy := false, rsyncWorkspace := true,
    newTimestamp := "2026-01-10T00:00:00+00:00", syncExitCode := 0,
    readback := .ok (some "2026-01-10T00:00:00+00:00\n"),
    procStdout := "", procStderr := "", markerBefore := some "2026-01-01T00:00:00+00:00" }

/-- Sync oracle for a run whose every rsync failed while a stale marker from
an earlier successful sync is still present at the destination: the transfer
command runs, writes nothing, and `cat` reads back the old timestamp. -/
def syncOracleStale : SyncOracle :=
  { mountOk := true, sanity := .ok (some "ok"), startSyncOk := true,
    rsyncConfigNew := false, rsyncConfigLegacy := false, rsyncWorkspace := false,
    newTimestamp := "2026-01-10T00:00:00+00:00", syncExitCode := 23,
    readback := .ok (some "2020-01-01T00:00:00+00:00\n"),
    procStdout := "", procStderr := "rsync error",
    markerBefore := some "2020-01-01T00:00:00+00:00" }

/-- A running gateway process handle. -/
def procGw : ProcHandle :=
  { id := 42, command := "/usr/local/bin/start-moltbot.sh", status := "running" }

/-- The replacement process started on the fresh-launch path. -/
def procNew : ProcHandle :=
  { id := 43, command := "/usr/local/bin/start-moltbot.sh", status := "starting" }

/-- Gateway oracle for the steady-state cycle: the stored marker trims to the
empty fingerprint of the empty environment and the port probe succeeds. -/
def gwOracleSteady : GatewayOracle :=
  { processes := .ok [procGw], storedRead := .ok "\n", markerBefore := some "",
    writeOk := true, waitExistingOk := true, startResult := .error "unused",
    waitNewOk := true, newWaitErrMsg := "" }

/-- Gateway oracle for the restart-on-change cycle: the fingerprint-marker
read throws (file absent) and a fresh process starts successfully. -/
def gwOracleChanged : GatewayOracle :=
  { processes := .ok [procGw], storedRead := .error (), markerBefore := none,
    writeOk := true, waitExistingOk := true, startResult := .ok procNew,
    waitNewOk := true, newWaitErrMsg := "" }

/-- A CLI invocation whose command text contains the gateway pattern. -/
def procCli : ProcHandle :=
  { id := 7, command := "openclaw devices list openclaw gateway check",
    status := "running" }

/-- Replace only the storage credentials of a snapshot, leaving all
recognized passthrough keys untouched. -/
def withStorageCreds (env : MoltbotEnv) (a b c : Option String) : MoltbotEnv :=
  { env with R2_ACCESS_KEY_ID := a, R2_SECRET_ACCESS_KEY := b, CF_ACCOUNT_ID := c }

/-- C2: `should_restore_from_r2` returns false with no remote marker, true
with a remote marker and no local marker; with both markers it restores
exactly when the remote epoch is strictly greater, where an unparsable
timestamp contributes epoch `0`; in particular an unparsable remote
timestamp never triggers a restore against a non-negative local epoch
(the fail-closed direction). -/
theorem shouldRestore_spec (pd : String → Option Int) (r l : String) :
    shouldRestoreFromR2 pd none none = false ∧
    shouldRestoreFromR2 pd none (some l) = false ∧
    shouldRestoreFromR2 pd (some r) none = true ∧
    (shouldRestoreFromR2 pd (some r) (some l) = true ↔
      (pd r).getD 0 > (pd l).getD 0) ∧
    (pd r = none → 0 ≤ (pd l).getD 0 →
      shouldRestoreFromR2 pd (some r) (some l) = false) := by
  refine ⟨rfl, rfl, rfl, ?_, ?_⟩
  · simp [shouldRestoreFromR2]
  · intro hr hl
    simp [shouldRestoreFromR2, hr]
    omega

/-- C2 witness: the gating decisions at the spec's concrete timestamps and at
an unparsable remote timestamp. -/
theorem shouldRestore_spec_witness :
    shouldRestoreFromR2 pdSample (some "2026-01-10T00:00:00Z")
      (some "2026-01-09T00:00:00Z") = true ∧
    shouldRestoreFromR2 pdSample (some "2026-01-09T00:00:00Z")
      (some "2026-01-10T00:00:00Z") = false ∧
    shouldRestoreFromR2 pdSample none none = false ∧
    shouldRestoreFromR2 pdSample (some "2026-01-10T00:00:00Z") none = true ∧
    shouldRestoreFromR2 pdSample (some "not-a-date")
      (some "2026-01-09T00:00:00Z") = false := by
  refine ⟨?_, ?_, ?_, ?_, ?_⟩
  · exact (shouldRestore_spec pdSample "2026-01-10T00:00:00Z"
      "2026-01-09T00:00:00Z").2.2.2.1.mpr (by decide)
  · have h := (shouldRestore_spec pdSample "2026-01-09T00:00:00Z"
      "2026-01-10T00:00:00Z").2.2.2.1
    cases hb : shouldRestoreFromR2 pdSample (some "2026-01-09T00:00:00Z")
      (some "2026-01-10T00:00:00Z")
    · rfl
    · exact absurd (h.mp hb) (by decide)
  · exact (shouldRestore_spec pdSample "x" "y").1
  · exact (shouldRestore_spec pdSample "2026-01-10T00:00:00Z" "y").2.2.1
  · exact (shouldRestore_spec pdSample "not-a-date"
      "2026-01-09T00:00:00Z").2.2.2.2 (by decide) (by decide)

/-- C8: `findExistingMoltbotProcess` returns a handle only for an enumerated
process matching a gateway-launch pattern, matching no CLI exclusion pattern,
with status `starting` or `running`; on enumeration failure it returns
`none` (the catch block swallows the error). -/
theorem findExisting_spec :
    (∀ (ps : List ProcHandle) (p : ProcHandle),
        findExistingMoltbotProcess (.ok ps) = some p →
        isGatewayCommand p.command = true ∧ isCliCommand p.command = false ∧
        (p.status = "starting" ∨ p.status = "running") ∧ p ∈ ps) ∧
    ∀ e : Unit, findExistingMoltbotProcess (.error e) = none := by
  constructor
  · intro ps p h
    have hm : p ∈ ps := List.mem_of_find?_eq_some h
    have hp : isSupervisedGateway p = true := List.find?_some h
    simp only [isSupervisedGateway, Bool.and_eq_true, Bool.not_eq_true',
      Bool.or_eq_true, beq_iff_eq] at hp
    exact ⟨hp.1.1, hp.1.2, hp.2, hm⟩
  · intro e
    rfl

/-- C8 witness: among a CLI invocation whose text also contains the gateway
pattern and a genuine gateway process, the gateway process is returned and
satisfies the classification; enumeration failure yields `none`. -/
theorem findExisting_spec_witness :
    (isGatewayCommand procGw.command = true ∧ isCliCommand procGw.command = false ∧
      (procGw.status = "starting" ∨ procGw.status = "running") ∧
      procGw ∈ [procCli, procGw]) ∧
    findExistingMoltbotProcess (.error ()) = none :=
  ⟨findExisting_spec.1 [procCli, procGw] procGw (by decide),
   findExisting_spec.2 ()⟩

/-- C9 counterexample: two snapshots with the same present-key-set (the key
`ANTHROPIC_API_KEY` is defined in both) produce different fingerprints,
because a key bound to the empty string is falsy and therefore skipped. -/
theorem fingerprint_presentKeys_counterexample :
    presentKeys ({ ANTHROPIC_API_KEY := some "sk-secret" } : MoltbotEnv) =
      presentKeys ({ ANTHROPIC_API_KEY := some "" } : MoltbotEnv) ∧
    getEnvFingerprint ({ ANTHROPIC_API_KEY := some "sk-secret" } : MoltbotEnv) ≠
      getEnvFingerprint ({ ANTHROPIC_API_KEY := some "" } : MoltbotEnv) := by
  decide

/-- C9 amended: the fingerprint is a pure function of the set of recognized
keys bound to a non-empty (truthy) value: snapshots agreeing on that set get
identical fingerprints regardless of the values, and repeated invocation on
the same snapshot returns the same string. -/
theorem fingerprint_truthyKeys_spec (e1 e2 : MoltbotEnv)
    (h : truthyKeys e1 = truthyKeys e2) :
    getEnvFingerprint e1 = getEnvFingerprint e2 ∧
    getEnvFingerprint e1 = getEnvFingerprint e1 := by
  refine ⟨?_, rfl⟩
  unfold getEnvFingerprint
  rw [h]

/-- C9 amended witness: rotating a token value leaves the fingerprint
unchanged. -/
theorem fingerprint_truthyKeys_spec_witness :
    getEnvFingerprint ({ TELEGRAM_BOT_TOKEN := some "12345:AAA" } : MoltbotEnv) =
      getEnvFingerprint ({ TELEGRAM_BOT_TOKEN := some "rotated" } : MoltbotEnv) :=
  (fingerprint_truthyKeys_spec _ _ (by decide)).1

/-- C10: the storage credentials `R2_ACCESS_KEY_ID`, `R2_SECRET_ACCESS_KEY`
and `CF_ACCOUNT_ID` are not among the recognized fingerprint keys, so
setting them to anything (adding, removing, rotating) changes neither the
fingerprint nor the supervisor's env-change restart decision for any stored
marker value. -/
theorem fingerprint_ignores_storage_creds (env : MoltbotEnv)
    (a b c : Option String) :
    getEnvFingerprint (withStorageCreds env a b c) = getEnvFingerprint env ∧
    ∀ sr : Except Unit String,
      envChanged sr (withStorageCreds env a b c) = envChanged sr env := by
  constructor
  · rfl
  · intro sr
    cases sr <;> rfl

/-- C7: when an existing gateway is found, its stored fingerprint marker
trims to the current fingerprint and its port probe succeeds, the supervisor
returns that same handle, kills nothing, launches nothing, and leaves the
fingerprint marker untouched. -/
theorem ensure_steady_state (env : MoltbotEnv) (o : GatewayOracle)
    (p : ProcHandle) (s : String)
    (hfind : findExistingMoltbotProcess o.processes = some p)
    (hread : o.storedRead = .ok s)
    (hfp : strTrim s = getEnvFingerprint env)
    (hwait : o.waitExistingOk = true) :
    (ensureMoltbotGateway env o).result = .ok p ∧
    (∀ pid, GwEvent.killProc pid ∉ (ensureMoltbotGateway env o).trace) ∧
    GwEvent.launch ∉ (ensureMoltbotGateway env o).trace ∧
    (ensureMoltbotGateway env o).markerAfter = o.markerBefore := by
  have hch : envChanged o.storedRead env = false := by
    simp [envChanged, hread, hfp]
  refine ⟨?_, ?_, ?_, ?_⟩ <;>
    simp [ensureMoltbotGateway, hfind, hch, hwait]

/-- C7 witness: the steady-state cycle at a concrete oracle returns the
existing process with no kill and no launch. -/
theorem ensure_steady_state_witness :
    (ensureMoltbotGateway {} gwOracleSteady).result = .ok procGw ∧
    (∀ pid, GwEvent.killProc pid ∉ (ensureMoltbotGateway {} gwOracleSteady).trace) ∧
    GwEvent.launch ∉ (ensureMoltbotGateway {} gwOracleSteady).trace ∧
    (ensureMoltbotGateway {} gwOracleSteady).markerAfter = gwOracleSteady.markerBefore :=
  ensure_steady_state {} gwOracleSteady procGw "\n" (by decide) rfl (by decide) rfl

/-- C3: when an existing gateway is found but its fingerprint marker is
unreadable or trims to something different from the current fingerprint, the
supervision trace kills the old process, then writes the current fingerprint
to the marker path, then launches (in that order); when the marker write
exec succeeds the marker afterwards equals the current fingerprint (what the
next cycle will read), and when the launch and probe succeed the new handle
is returned. -/
theorem ensure_restart_on_change (env : MoltbotEnv) (o : GatewayOracle)
    (p : ProcHandle)
    (hfind : findExistingMoltbotProcess o.processes = some p)
    (hch : o.storedRead = .error () ∨
      ∃ s, o.storedRead = .ok s ∧ strTrim s ≠ getEnvFingerprint env) :
    (∃ rest, (ensureMoltbotGateway env o).trace =
        [GwEvent.mount, GwEvent.setEnv, GwEvent.readMarker,
         GwEvent.killProc p.id, GwEvent.writeMarker (getEnvFingerprint env),
         GwEvent.launch] ++ rest) ∧
    (o.writeOk = true →
      (ensureMoltbotGateway env o).markerAfter = some (getEnvFingerprint env)) ∧
    (∀ q, o.startResult = .ok q → o.waitNewOk = true →
      (ensureMoltbotGateway env o).result = .ok q) := by
  have hc : envChanged o.storedRead env = true := by
    rcases hch with h | ⟨s, hs, hne⟩
    · simp [envChanged, h]
    · simp [envChanged, hs, hne]
  refine ⟨?_, ?_, ?_⟩
  · cases hsr : o.startResult with
    | error e =>
      exact ⟨[], by simp [ensureMoltbotGateway, hfind, hc, freshLaunch, hsr]⟩
    | ok q =>
      refine ⟨[GwEvent.waitPort q.id], ?_⟩
      cases hw : o.waitNewOk <;>
        simp [ensureMoltbotGateway, hfind, hc, freshLaunch, hsr, hw]
  · intro hwr
    cases hsr : o.startResult with
    | error e =>
      simp [ensureMoltbotGateway, hfind, hc, freshLaunch, hsr, hwr]
    | ok q =>
      cases hw : o.waitNewOk <;>
        simp [ensureMoltbotGateway, hfind, hc, freshLaunch, hsr, hw, hwr]
  · intro q hq hw
    simp [ensureMoltbotGateway, hfind, hc, freshLaunch, hq, hw]

/-- C3 witness: the restart-on-change cycle at a concrete oracle with an
unreadable marker. -/
theorem ensure_restart_on_change_witness :
    (∃ rest, (ensureMoltbotGateway {} gwOracleChanged).trace =
        [GwEvent.mount, GwEvent.setEnv, GwEvent.readMarker,
         GwEvent.killProc procGw.id,
         GwEvent.writeMarker (getEnvFingerprint {}), GwEvent.launch] ++ rest) ∧
    (gwOracleChanged.writeOk = true →
      (ensureMoltbotGateway {} gwOracleChanged).markerAfter =
        some (getEnvFingerprint {})) ∧
    (∀ q, gwOracleChanged.startResult = .ok q → gwOracleChanged.waitNewOk = true →
      (ensureMoltbotGateway {} gwOracleChanged).result = .ok q) :=
  ensure_restart_on_change {} gwOracleChanged procGw (by decide) (Or.inl rfl)


/-- Helper: every `syncToR2` branch leaves the destination marker either at
the shell command's outcome (`syncMarkerAfter`) or untouched. -/
theorem syncToR2_marker_cases (env : MoltbotEnv) (o : SyncOracle) :
    (syncToR2 env o).markerAfter = syncMarkerAfter o ∨
    (syncToR2 env o).markerAfter = o.markerBefore := by
  unfold syncToR2
  cases hcf : r2Configured env
  · right; rfl
  · cases hm : o.mountOk
    · right; rfl
    · cases hs : o.sanity with
      | error msg => right; rfl
      | ok st =>
        cases st with
        | none => right; rfl
        | some s =>
          cases hok : strContains s "ok"
          · simp [hok]
          · cases hst : o.startSyncOk
            · simp [hok, hst]
            · cases hrb : o.readback with
              | error msg => simp [hok, hst, hrb]
              | ok stamp =>
                cases stamp with
                | none => simp [hok, hst, hrb]
                | some sv =>
                  cases hd : dateShaped (strTrim sv) <;>
                    simp [hok, hst, hrb, hd]

/-- C1: the destination `.last-sync` marker is written by `syncToR2` only
after every Backup Target Set transfer completed — the config mirror (either
rsync path) and the workspace mirror (which carries the `skills/` subtree of
`/root/clawd/`); when any mirror fails, or the command never runs, the
marker keeps its prior value, so a partial backup is never certified. -/
theorem syncToR2_marker_commit (env : MoltbotEnv) (o : SyncOracle) :
    ((configMirrorOk o && o.rsyncWorkspace) = false →
      (syncToR2 env o).markerAfter = o.markerBefore) ∧
    ((syncToR2 env o).markerAfter ≠ o.markerBefore →
      o.startSyncOk = true ∧ configMirrorOk o = true ∧ o.rsyncWorkspace = true ∧
      (syncToR2 env o).markerAfter = some o.newTimestamp) := by
  constructor
  · intro h
    have hr : markerWriteReached o = false := by
      simp [markerWriteReached, h]
    have hsm : syncMarkerAfter o = o.markerBefore := by
      simp [syncMarkerAfter, hr]
    rcases syncToR2_marker_cases env o with h1 | h1 <;> rw [h1]
    exact hsm
  · intro h
    rcases syncToR2_marker_cases env o with h1 | h1
    · cases hw : markerWriteReached o
      · exact absurd (h1.trans (by simp [syncMarkerAfter, hw])) h
      · have hparts := hw
        simp only [markerWriteReached, Bool.and_eq_true] at hparts
        exact ⟨hparts.1, hparts.2.1, hparts.2.2,
          h1.trans (by simp [syncMarkerAfter, hw])⟩
    · exact absurd h1 h

/-- C1 witness: a fully successful sync moves the marker from absent to the
fresh timestamp, and the theorem recovers that all transfers completed. -/
theorem syncToR2_marker_commit_witness :
    syncOracleAllOk.startSyncOk = true ∧ configMirrorOk syncOracleAllOk = true ∧
    syncOracleAllOk.rsyncWorkspace = true ∧
    (syncToR2 envR2 syncOracleAllOk).markerAfter = some syncOracleAllOk.newTimestamp :=
  (syncToR2_marker_commit envR2 syncOracleAllOk).2 (by decide)

/-- C4: whenever the pre-transfer sanity check does not pass (no recognized
config marker file reported, or the check block threw), `syncToR2` returns a
failure result, never runs the transfer command, and leaves the destination
marker at its prior value. -/
theorem syncToR2_sanity_gate (env : MoltbotEnv) (o : SyncOracle)
    (h : sanityPasses o = false) :
    (syncToR2 env o).result.success = false ∧
    (syncToR2 env o).ranTransferCmd = false ∧
    (syncToR2 env o).markerAfter = o.markerBefore := by
  unfold syncToR2
  cases hcf : r2Configured env
  · simp
  · cases hm : o.mountOk
    · simp
    · cases hs : o.sanity with
      | error msg => simp
      | ok st =>
        cases st with
        | none => simp
        | some s =>
          cases hok : strContains s "ok"
          · simp [hok]
          · exact absurd (by simpa [sanityPasses, hs] using h) (by simp [hok])

/-- C4 witness: the sanity gate at a concrete oracle whose check output lacks
`ok`, with a pre-existing destination marker left untouched. -/
theorem syncToR2_sanity_gate_witness :
    (syncToR2 envR2 syncOracleBadSanity).result.success = false ∧
    (syncToR2 envR2 syncOracleBadSanity).ranTransferCmd = false ∧
    (syncToR2 envR2 syncOracleBadSanity).markerAfter = syncOracleBadSanity.markerBefore :=
  syncToR2_sanity_gate envR2 syncOracleBadSanity (by decide)

/-- C5 amended: `syncToR2` never consults the transfer process's exit status
(its entire outcome is invariant in `syncExitCode`), and it reports success
exactly when all gates passed and the read-back of whatever the destination
`.last-sync` holds after the attempt is a date-shaped timestamp
(`readbackValid`).  The read-back value is not guaranteed to be freshly
written or recent — see the counterexample. -/
theorem syncToR2_success_readback (env : MoltbotEnv) (o : SyncOracle) :
    ((syncToR2 env o).result.success = true ↔
      (r2Configured env = true ∧ o.mountOk = true ∧ sanityPasses o = true ∧
       o.startSyncOk = true ∧ readbackValid o = true)) ∧
    ∀ n, syncToR2 env { o with syncExitCode := n } = syncToR2 env o := by
  constructor
  · unfold syncToR2
    cases hcf : r2Configured env
    · simp [hcf]
    · cases hm : o.mountOk
      · simp [hm]
      · cases hs : o.sanity with
        | error msg => simp [sanityPasses, hs]
        | ok st =>
          cases st with
          | none => simp [sanityPasses, hs]
          | some s =>
            cases hok : strContains s "ok"
            · simp [sanityPasses, hs, hok]
            · cases hst : o.startSyncOk
              · simp [sanityPasses, hs, hok, hst]
              · cases hrb : o.readback with
                | error msg => simp [sanityPasses, hs, hok, hst, readbackValid, hrb]
                | ok stamp =>
                  cases stamp with
                  | none => simp [sanityPasses, hs, hok, hst, readbackValid, hrb]
                  | some sv =>
                    cases hd : dateShaped (strTrim sv) <;>
                      simp [sanityPasses, hs, hok, hst, readbackValid, hrb, hd]
  · intro n
    cases o
    rfl

/-- C5 witness: a successful run whose success is recovered from the
read-back condition. -/
theorem syncToR2_success_readback_witness :
    (syncToR2 envR2 syncOracleAllOk).result.success = true :=
  ((syncToR2_success_readback envR2 syncOracleAllOk).1).mpr (by decide)

/-- C5 counterexample: a run in which every rsync failed, so nothing was
freshly written and the destination marker keeps its stale prior value from
an earlier sync — yet `cat` reads that stale timestamp back, the shape check
passes, and the call reports success with the old, non-recent timestamp.
Success is therefore not equivalent to a freshly written, recent marker. -/
theorem syncToR2_success_readback_counterexample :
    (syncToR2 envR2 syncOracleStale).result.success = true ∧
    configMirrorOk syncOracleStale = false ∧
    syncOracleStale.rsyncWorkspace = false ∧
    markerWriteReached syncOracleStale = false ∧
    (syncToR2 envR2 syncOracleStale).markerAfter = syncOracleStale.markerBefore ∧
    (syncToR2 envR2 syncOracleStale).result.lastSync =
      some "2020-01-01T00:00:00+00:00" := by
  decide
